import Mathlib

/-!
Verification of the picky-share browser extension.

The background worker (`src/background/worker.ts`), the popup
(`src/popup/App.tsx`) and the side panel (`src/sidepanel/App.tsx`) are
embedded from the source.  The upload client (`src/utils/pasteApi.ts`) and
the configuration module (`src/utils/config.ts`) are absent from the
sources, so those definitions are modelled from the specification
(sections 4.1-4.3 of the spec); each such definition carries a
`Modelled from the spec:` doc comment.
-/

namespace PickyShare

/-- Modelled from the spec: `CONFIG.API` base URL of `src/utils/config.ts`
(file absent from the sources); the paste.rs endpoint. -/
def API_BASE_URL : String := "https://paste.rs/"

/-- Modelled from the spec: configured maximum text length
(500,000 characters, spec section 4.1). -/
def MAX_TEXT_LENGTH : Nat := 500000

/-- Modelled from the spec: default retry budget, "3 attempts beyond the
first (4 total max)" (spec section 4.2). -/
def RETRY_ATTEMPTS : Nat := 3

/-- `CONFIG.STORAGE.HISTORY_LIMIT`: capacity of the share history.  The
configuration module is absent from the sources; the CHANGELOG records
"Storage of share history (last 50 items)". -/
def HISTORY_LIMIT : Nat := 50

/-- Error taxonomy of spec section 7.  Each constructor stands for one of
the distinct human-readable failure messages of the upload client. -/
inductive ErrKind where
  | InvalidText
  | SizeLimitExceeded
  | NetworkError
  | Timeout
  | RateLimited
  | ServiceUnavailable
  | UploadFailed
  | NotFound
  | InvalidArgument
deriving DecidableEq, Repr

/-- `ValidationResult` of the spec data model: `valid` flag with an
optional error. -/
structure ValidationResult where
  valid : Bool
  error : Option ErrKind := none
deriving DecidableEq, Repr

/-- Modelled from the spec: the validator of `src/utils/pasteApi.ts` (file
absent from the sources).  Fails with `InvalidText` when the text is empty
or consists solely of whitespace, fails with `SizeLimitExceeded` when its
length exceeds the configured maximum, and otherwise is valid
(spec section 4.1, in that order). -/
def validateText (text : String) : ValidationResult :=
  if text.data.all Char.isWhitespace then
    { valid := false, error := some ErrKind.InvalidText }
  else if text.length > MAX_TEXT_LENGTH then
    { valid := false, error := some ErrKind.SizeLimitExceeded }
  else
    { valid := true }

/-- An HTTP response as the upload client observes it: status code, the
optional `Location` header and the body text. -/
structure HttpResponse where
  status : Nat
  location : Option String
  body : String
deriving DecidableEq, Repr

/-- Outcome of one Transport attempt: a response, a timeout-induced
cancellation, a network-level failure, or any other exception. -/
inductive AttemptOutcome where
  | response (resp : HttpResponse)
  | timeout
  | networkFailure
  | otherFailure
deriving DecidableEq, Repr

/-- The exceptions the Transport can propagate to the upload client. -/
inductive TransportError where
  | timedOut
  | network
  | other
deriving DecidableEq, Repr

/-- Modelled from the spec: `fetchWithRetry` of `src/utils/pasteApi.ts`
(file absent from the sources), spec section 4.2.  The behaviour of the
network on attempt `n` is given by the oracle.  On a timeout with
`retriesRemaining > 0` the call re-attempts recursively with a
decremented budget; any other failure propagates immediately.  The result
is paired with the number of Transport invocations made. -/
def fetchWithRetry (oracle : Nat → AttemptOutcome) :
    Nat → Nat → Except TransportError HttpResponse × Nat
  | attempt, retriesRemaining =>
    match oracle attempt, retriesRemaining with
    | .response resp, _ => (.ok resp, 1)
    | .networkFailure, _ => (.error .network, 1)
    | .otherFailure, _ => (.error .other, 1)
    | .timeout, 0 => (.error .timedOut, 1)
    | .timeout, r + 1 =>
      let p := fetchWithRetry oracle (attempt + 1) r
      (p.1, p.2 + 1)

/-- Split a character list at every occurrence of `c`; always returns at
least one (possibly empty) segment. -/
def splitOnChar (c : Char) : List Char → List (List Char)
  | [] => [[]]
  | x :: xs =>
    let r := splitOnChar c xs
    if x = c then [] :: r
    else
      match r with
      | [] => [[x]]
      | y :: ys => (x :: y) :: ys

/-- The final path segment of a string: the part after the last `/`. -/
def lastPathSegment (s : String) : String :=
  String.mk ((splitOnChar '/' s.data).getLastD [])

/-- Modelled from the spec: identifier extraction for a 201/206 response —
the final path segment of the `Location` header or, when that header is
absent, of the response body text (spec section 4.3 step 3). -/
def extractPasteId (resp : HttpResponse) : String :=
  lastPathSegment ((resp.location).getD resp.body)

/-- `UploadResult` of the spec data model (the `PasteResponse` returned by
`uploadToPaste`). -/
structure UploadResult where
  success : Bool
  link : Option String := none
  id : Option String := none
  error : Option ErrKind := none
  statusCode : Option Nat := none
  partialUpload : Option Bool := none
deriving DecidableEq, Repr

/-- Modelled from the spec: status-code interpretation of `uploadToPaste`
(spec section 4.3 step 3).  201 is a full success and 206 a partial one;
both extract an identifier and build the link from the base URL; an empty
identifier is the `UploadFailed` protocol violation; 429 is rate-limited,
at least 500 is service-unavailable, anything else is `UploadFailed`. -/
def interpretResponse (resp : HttpResponse) : UploadResult :=
  if resp.status = 201 ∨ resp.status = 206 then
    let pasteId := extractPasteId resp
    if pasteId = "" then
      { success := false, error := some ErrKind.UploadFailed,
        statusCode := some resp.status }
    else
      { success := true, link := some (API_BASE_URL ++ pasteId),
        id := some pasteId, statusCode := some resp.status,
        partialUpload := some (resp.status == 206) }
  else if resp.status = 429 then
    { success := false, error := some ErrKind.RateLimited,
      statusCode := some resp.status }
  else if resp.status ≥ 500 then
    { success := false, error := some ErrKind.ServiceUnavailable,
      statusCode := some resp.status }
  else
    { success := false, error := some ErrKind.UploadFailed,
      statusCode := some resp.status }

/-- Modelled from the spec: the body of `uploadToPaste` before its
exception handler.  Validation failures are already result values; a
Transport exception is still an exception here (spec section 4.3
steps 1-3). -/
def uploadAttempt (text : String) (oracle : Nat → AttemptOutcome) :
    Except TransportError UploadResult :=
  let v := validateText text
  if v.valid then
    match (fetchWithRetry oracle 0 RETRY_ATTEMPTS).1 with
    | .ok resp => .ok (interpretResponse resp)
    | .error e => .error e
  else
    .ok { success := false, error := v.error }

/-- Modelled from the spec: `uploadToPaste` of `src/utils/pasteApi.ts`
(file absent from the sources).  The catch clause of spec section 4.3
step 4 maps a network-level failure to `NetworkError`, a timeout that
exhausted all retries to `Timeout`, and any other exception to
`UploadFailed`; no exception crosses this boundary. -/
def uploadToPaste (text : String) (oracle : Nat → AttemptOutcome) :
    UploadResult :=
  match uploadAttempt text oracle with
  | .ok r => r
  | .error .timedOut => { success := false, error := some ErrKind.Timeout }
  | .error .network => { success := false, error := some ErrKind.NetworkError }
  | .error .other => { success := false, error := some ErrKind.UploadFailed }

/-- Number of Transport invocations `uploadToPaste` makes: none when
validation fails, otherwise the attempts consumed by `fetchWithRetry`. -/
def uploadCallCount (text : String) (oracle : Nat → AttemptOutcome) : Nat :=
  if (validateText text).valid then (fetchWithRetry oracle 0 RETRY_ATTEMPTS).2
  else 0

/-- `ShareHistoryEntry` stored by `storeShareHistory` of
`src/background/worker.ts`: preview text, share link and timestamp. -/
structure ShareHistoryEntry where
  text : String
  link : String
  timestamp : String
deriving DecidableEq, Repr

/-- `storeShareHistory` of `src/background/worker.ts` (lines 157-191) as a
pure operation on the stored list: prepend the new entry (preview = first
100 characters, timestamp assigned at storage time) and drop the last
entry when the length exceeds `HISTORY_LIMIT`. -/
def storeShareHistory (text link timestamp : String)
    (history : List ShareHistoryEntry) : List ShareHistoryEntry :=
  let history' : List ShareHistoryEntry :=
    { text := text.take 100, link := link, timestamp := timestamp } :: history
  if history'.length > HISTORY_LIMIT then history'.dropLast else history'

/-- The distinct error strings the worker's responses can carry:
`upstream e` relays `result.error` of the upload client; the other
constructors are the literal strings of `src/background/worker.ts`
("Invalid message format", "Invalid text provided",
"Unexpected error occurred", "Unknown action", "Internal error"). -/
inductive WorkerError where
  | invalidFormat
  | invalidTextProvided
  | upstream (e : ErrKind)
  | unexpected
  | unknownAction
  | internal
deriving DecidableEq, Repr

/-- A response object sent through `sendResponse` by the background
worker; a `none` field models an absent key of the JavaScript object. -/
structure WorkerResponse where
  success : Option Bool := none
  link : Option String := none
  id : Option String := none
  error : Option WorkerError := none
  statusCode : Option Nat := none
  partialUpload : Option Bool := none
  ready : Option Bool := none
  received : Option Bool := none
  history : Option (List ShareHistoryEntry) := none
  logs : Option (List String) := none
deriving DecidableEq, Repr

/-- The `createShareLink` response relay of `src/background/worker.ts`
(lines 66-72): the object sent is
`{success, link, error, statusCode, partialUpload}` built from the upload
result — it carries no `id` key. -/
def relayResponse (r : UploadResult) : WorkerResponse :=
  { success := some r.success, link := r.link,
    error := (r.error).map WorkerError.upstream,
    statusCode := r.statusCode, partialUpload := r.partialUpload }

/-- The `createShareLink` branch of the worker's message listener
(`src/background/worker.ts` lines 32-84).  `text` is the message's `text`
field (`none` models an absent or non-string value, and the empty string
is falsy, both rejected by the guard).  `up` is the settled upload
promise (`Except.error` a rejection, handled by the `.catch` at lines
74-80).  `storeOk` says whether the `storeShareHistory` storage callback
succeeds (its failure is caught at lines 55-59 and leaves the history
unchanged).  Returns the response sent and the new stored history. -/
def handleCreateShareLink (text : Option String)
    (up : Except Unit UploadResult) (storeOk : Bool) (now : String)
    (history : List ShareHistoryEntry) :
    WorkerResponse × List ShareHistoryEntry :=
  match text with
  | none =>
    ({ success := some false, error := some WorkerError.invalidTextProvided },
     history)
  | some t =>
    if t = "" then
      ({ success := some false, error := some WorkerError.invalidTextProvided },
       history)
    else
      match up with
      | .ok r =>
        (relayResponse r,
         if r.success then
           if storeOk then storeShareHistory t ((r.link).getD "") now history
           else history
         else history)
      | .error _ =>
        ({ success := some false, error := some WorkerError.unexpected },
         history)

/-- A message delivered to the worker's listener: an optional `action`
string and an optional `text` string (absent or non-string fields are
`none`). -/
structure WorkerRequest where
  action : Option String := none
  text : Option String := none
deriving DecidableEq, Repr

/-- The `chrome.runtime.onMessage` listener of `src/background/worker.ts`
(lines 17-152).  The missing-action guard (also hit by the falsy empty
string) runs before the `try` block; `fault` models a synchronous
exception raised inside the `try` block before any effect, which the
`catch` at lines 144-152 turns into the "Internal error" response.  Every
branch sends exactly one response; the second component is the stored
share history after the call. -/
def onMessage (req : WorkerRequest) (fault : Bool)
    (up : Except Unit UploadResult) (storeOk : Bool) (now : String)
    (logs : List String) (history : List ShareHistoryEntry) :
    WorkerResponse × List ShareHistoryEntry :=
  match req.action with
  | none =>
    ({ success := some false, error := some WorkerError.invalidFormat },
     history)
  | some a =>
    if a = "" then
      ({ success := some false, error := some WorkerError.invalidFormat },
       history)
    else if fault then
      ({ success := some false, error := some WorkerError.internal }, history)
    else if a = "createShareLink" then
      handleCreateShareLink req.text up storeOk now history
    else if a = "ping" then
      ({ success := some true, ready := some true }, history)
    else if a = "textSelected" then
      match req.text with
      | none => ({ received := some false }, history)
      | some t =>
        if t = "" then ({ received := some false }, history)
        else ({ received := some true }, history)
    else if a = "getShareHistory" then
      ({ success := some true, history := some history }, history)
    else if a = "clearShareHistory" then
      ({ success := some true }, [])
    else if a = "getLogs" then
      ({ success := some true, logs := some logs }, history)
    else
      ({ success := some false, error := some WorkerError.unknownAction },
       history)

/-- `handleBulkDelete` of the side panel (`src/sidepanel/App.tsx`
lines 161-174): with a non-empty selection it writes
`shareHistory.filter((_, index) => !selectedItems.has(index))` straight to
`chrome.storage.local`; with an empty selection it returns without
writing (`none`). -/
def handleBulkDelete (selectedItems : List Nat)
    (shareHistory : List ShareHistoryEntry) :
    Option (List ShareHistoryEntry) :=
  if selectedItems.isEmpty then none
  else
    some (((shareHistory.enum).filter
      (fun p => !(selectedItems.contains p.1))).map Prod.snd)

/-! ## Transport lemmas -/

lemma fetchWithRetry_response (oracle : Nat → AttemptOutcome) (i r : Nat)
    (resp : HttpResponse) (h0 : oracle i = AttemptOutcome.response resp) :
    fetchWithRetry oracle i r = (Except.ok resp, 1) := by
  cases r <;> simp [fetchWithRetry, h0]

lemma fetchWithRetry_network (oracle : Nat → AttemptOutcome) (i r : Nat)
    (h0 : oracle i = AttemptOutcome.networkFailure) :
    fetchWithRetry oracle i r = (Except.error TransportError.network, 1) := by
  cases r <;> simp [fetchWithRetry, h0]

lemma fetchWithRetry_other (oracle : Nat → AttemptOutcome) (i r : Nat)
    (h0 : oracle i = AttemptOutcome.otherFailure) :
    fetchWithRetry oracle i r = (Except.error TransportError.other, 1) := by
  cases r <;> simp [fetchWithRetry, h0]

lemma fetchWithRetry_timeout_all (oracle : Nat → AttemptOutcome)
    (h : ∀ n, oracle n = AttemptOutcome.timeout) (r : Nat) :
    ∀ i, fetchWithRetry oracle i r =
      (Except.error TransportError.timedOut, r + 1) := by
  induction r with
  | zero => intro i; simp [fetchWithRetry, h i]
  | succ r ih => intro i; simp [fetchWithRetry, h i, ih (i + 1)]

/-- When the first Transport attempt yields a response, the upload result
is its interpretation and exactly one Transport invocation is made. -/
lemma uploadToPaste_of_response (text : String)
    (oracle : Nat → AttemptOutcome) (resp : HttpResponse)
    (hv : (validateText text).valid = true)
    (h0 : oracle 0 = AttemptOutcome.response resp) :
    uploadToPaste text oracle = interpretResponse resp ∧
    uploadCallCount text oracle = 1 := by
  have hf := fetchWithRetry_response oracle 0 RETRY_ATTEMPTS resp h0
  constructor
  · simp [uploadToPaste, uploadAttempt, hv, hf]
  · simp [uploadCallCount, hv, hf]

/-! ## C1: interpretation of 201 and 206 responses -/

/-- C1: for a Transport response with status 201 or 206, `upload` succeeds
with `partialUpload` false for 201 and true for 206; the id is the final
path segment of the `Location` header (or of the body when the header is
absent) and the link is the base URL concatenated with the id; when no
identifier can be extracted the result is `success = false` with
`UploadFailed`. -/
theorem upload_success_statuses (text : String)
    (oracle : Nat → AttemptOutcome) (resp : HttpResponse)
    (hv : (validateText text).valid = true)
    (h0 : oracle 0 = AttemptOutcome.response resp)
    (hs : resp.status = 201 ∨ resp.status = 206) :
    (extractPasteId resp ≠ "" →
      uploadToPaste text oracle =
        { success := true,
          link := some (API_BASE_URL ++ extractPasteId resp),
          id := some (extractPasteId resp),
          statusCode := some resp.status,
          partialUpload := some (resp.status == 206) } ∧
      (resp.status = 201 →
        (uploadToPaste text oracle).partialUpload = some false) ∧
      (resp.status = 206 →
        (uploadToPaste text oracle).partialUpload = some true)) ∧
    (extractPasteId resp = "" →
      (uploadToPaste text oracle).success = false ∧
      (uploadToPaste text oracle).error = some ErrKind.UploadFailed) := by
  have hup := (uploadToPaste_of_response text oracle resp hv h0).1
  have hint : interpretResponse resp =
      (if extractPasteId resp = "" then
        { success := false, error := some ErrKind.UploadFailed,
          statusCode := some resp.status }
      else
        { success := true, link := some (API_BASE_URL ++ extractPasteId resp),
          id := some (extractPasteId resp), statusCode := some resp.status,
          partialUpload := some (resp.status == 206) }) := by
    unfold interpretResponse
    rw [if_pos hs]
  constructor
  · intro hid
    rw [hup, hint, if_neg hid]
    refine ⟨rfl, ?_, ?_⟩
    · intro h201; simp [h201]
    · intro h206; simp [h206]
  · intro hid
    rw [hup, hint, if_pos hid]
    exact ⟨rfl, rfl⟩

def createdOracle : Nat → AttemptOutcome :=
  fun _ => AttemptOutcome.response
    { status := 201, location := some "https://paste.rs/abc123", body := "" }

/-- Witness for C1: a mocked 201 response with
`Location: https://paste.rs/abc123` makes `upload("hello")` succeed with
link `https://paste.rs/abc123`, id `abc123` and `partialUpload` false. -/
theorem upload_success_statuses_witness :
    uploadToPaste "hello" createdOracle =
      { success := true, link := some "https://paste.rs/abc123",
        id := some "abc123", statusCode := some 201,
        partialUpload := some false } := by
  have h := (upload_success_statuses "hello" createdOracle
      { status := 201, location := some "https://paste.rs/abc123", body := "" }
      (by decide) rfl (Or.inl rfl)).1 (by decide)
  exact h.1.trans (by decide)

/-! ## C2: exhaustion of the retry budget on persistent timeouts -/

/-- C2: when the Transport times out on every attempt, `upload` terminates
with `success = false` and error `Timeout` after exactly
`RETRY_ATTEMPTS + 1` Transport invocations — 4 in total with the default
budget of 3 retries beyond the first. -/
theorem upload_timeout_exhausts_retries (text : String)
    (oracle : Nat → AttemptOutcome)
    (hv : (validateText text).valid = true)
    (ht : ∀ n, oracle n = AttemptOutcome.timeout) :
    uploadToPaste text oracle =
      { success := false, error := some ErrKind.Timeout } ∧
    uploadCallCount text oracle = RETRY_ATTEMPTS + 1 ∧
    RETRY_ATTEMPTS + 1 = 4 := by
  have hf := fetchWithRetry_timeout_all oracle ht RETRY_ATTEMPTS 0
  refine ⟨?_, ?_, rfl⟩
  · simp [uploadToPaste, uploadAttempt, hv, hf]
  · simp [uploadCallCount, hv, hf]

def timeoutOracle : Nat → AttemptOutcome := fun _ => AttemptOutcome.timeout

/-- Witness for C2: with a Transport that always times out,
`upload("hello")` returns the `Timeout` failure after 4 invocations. -/
theorem upload_timeout_exhausts_retries_witness :
    uploadToPaste "hello" timeoutOracle =
      { success := false, error := some ErrKind.Timeout } ∧
    uploadCallCount "hello" timeoutOracle = 4 := by
  have h := upload_timeout_exhausts_retries "hello" timeoutOracle
    (by decide) (fun n => rfl)
  exact ⟨h.1, h.2.1.trans (by decide)⟩

/-! ## C3: rate limiting, and no retry on non-timeout outcomes -/

/-- C3: a Transport response with status 429 yields `success = false` with
the rate-limit error and `statusCode` 429 after exactly one Transport
invocation; more generally any upload whose first Transport outcome is not
a timeout makes exactly one Transport invocation. -/
theorem upload_rate_limited (text : String)
    (oracle : Nat → AttemptOutcome) (resp : HttpResponse)
    (hv : (validateText text).valid = true)
    (h0 : oracle 0 = AttemptOutcome.response resp)
    (hs : resp.status = 429) :
    uploadToPaste text oracle =
      { success := false, error := some ErrKind.RateLimited,
        statusCode := some 429 } ∧
    uploadCallCount text oracle = 1 ∧
    (∀ g : Nat → AttemptOutcome, g 0 ≠ AttemptOutcome.timeout →
      uploadCallCount text g = 1) := by
  obtain ⟨hup, hcount⟩ := uploadToPaste_of_response text oracle resp hv h0
  have hint : interpretResponse resp =
      { success := false, error := some ErrKind.RateLimited,
        statusCode := some resp.status } := by
    unfold interpretResponse
    rw [if_neg (by rw [hs]; decide), if_pos hs]
  refine ⟨?_, hcount, ?_⟩
  · rw [hup, hint, hs]
  · intro g hg
    rcases hgo : g 0 with r2 | _ | _ | _
    · simp [uploadCallCount, hv, fetchWithRetry_response g 0 RETRY_ATTEMPTS r2 hgo]
    · exact absurd hgo hg
    · simp [uploadCallCount, hv, fetchWithRetry_network g 0 RETRY_ATTEMPTS hgo]
    · simp [uploadCallCount, hv, fetchWithRetry_other g 0 RETRY_ATTEMPTS hgo]

def rateLimitedOracle : Nat → AttemptOutcome :=
  fun _ => AttemptOutcome.response { status := 429, location := none, body := "" }

/-- Witness for C3: a mocked 429 response makes `upload("hello")` fail as
rate-limited with `statusCode` 429 and a single Transport invocation. -/
theorem upload_rate_limited_witness :
    uploadToPaste "hello" rateLimitedOracle =
      { success := false, error := some ErrKind.RateLimited,
        statusCode := some 429 } ∧
    uploadCallCount "hello" rateLimitedOracle = 1 := by
  have h := upload_rate_limited "hello" rateLimitedOracle
    { status := 429, location := none, body := "" } (by decide) rfl rfl
  exact ⟨h.1, h.2.1⟩

/-! ## C4: validation short-circuits before any Transport call -/

lemma uploadToPaste_whitespace (text : String) (oracle : Nat → AttemptOutcome)
    (h : text.data.all Char.isWhitespace = true) :
    uploadToPaste text oracle =
      { success := false, error := some ErrKind.InvalidText } ∧
    uploadCallCount text oracle = 0 := by
  have hv : validateText text =
      { valid := false, error := some ErrKind.InvalidText } := by
    simp [validateText, h]
  constructor
  · simp [uploadToPaste, uploadAttempt, hv]
  · simp [uploadCallCount, hv]

lemma uploadToPaste_too_long (text : String) (oracle : Nat → AttemptOutcome)
    (h : text.data.all Char.isWhitespace = false)
    (hlen : text.length > MAX_TEXT_LENGTH) :
    uploadToPaste text oracle =
      { success := false, error := some ErrKind.SizeLimitExceeded } ∧
    uploadCallCount text oracle = 0 := by
  have hv : validateText text =
      { valid := false, error := some ErrKind.SizeLimitExceeded } := by
    simp [validateText, h, hlen]
  constructor
  · simp [uploadToPaste, uploadAttempt, hv]
  · simp [uploadCallCount, hv]

lemma replicate_space_all_whitespace (n : Nat) :
    (List.replicate n ' ').all Char.isWhitespace = true := by
  induction n with
  | zero => rfl
  | succ n ih =>
    have hsp : Char.isWhitespace ' ' = true := by decide
    simp [List.replicate_succ, List.all_cons, hsp, ih]

lemma replicate_a_not_whitespace (n : Nat) :
    (List.replicate (n + 1) 'a').all Char.isWhitespace = false := by
  have ha : Char.isWhitespace 'a' = false := by decide
  simp [List.replicate_succ, List.all_cons, ha]

/-- A whitespace-only text longer than the configured maximum. -/
def whitespaceOnlyLong : String :=
  String.mk (List.replicate (MAX_TEXT_LENGTH + 1) ' ')

/-- A non-whitespace text longer than the configured maximum. -/
def longNonWhitespace : String :=
  String.mk (List.replicate (MAX_TEXT_LENGTH + 1) 'a')

/-- C4 counterexample: a text of 500,001 spaces exceeds the configured
maximum length, yet `upload` reports `InvalidText` (the whitespace-only
check fires first), not `SizeLimitExceeded` as the claim states for every
over-long text. -/
theorem upload_size_limit_counterexample :
    whitespaceOnlyLong.length > MAX_TEXT_LENGTH ∧
    uploadToPaste whitespaceOnlyLong timeoutOracle =
      { success := false, error := some ErrKind.InvalidText } ∧
    (uploadToPaste whitespaceOnlyLong timeoutOracle).error ≠
      some ErrKind.SizeLimitExceeded := by
  have hlen : whitespaceOnlyLong.length = MAX_TEXT_LENGTH + 1 := by
    show (List.replicate (MAX_TEXT_LENGTH + 1) ' ').length = MAX_TEXT_LENGTH + 1
    exact List.length_replicate _ _
  have hws : whitespaceOnlyLong.data.all Char.isWhitespace = true :=
    replicate_space_all_whitespace (MAX_TEXT_LENGTH + 1)
  have hup := (uploadToPaste_whitespace whitespaceOnlyLong timeoutOracle hws).1
  refine ⟨by omega, hup, ?_⟩
  rw [hup]
  decide

/-- C4 (amended): every whitespace-only (in particular empty) text fails
with `InvalidText`, and every text that is not whitespace-only whose
length exceeds the configured maximum of 500,000 characters fails with
`SizeLimitExceeded`; in both cases no Transport call is made. -/
theorem upload_validation (text : String) (oracle : Nat → AttemptOutcome) :
    (text.data.all Char.isWhitespace = true →
      uploadToPaste text oracle =
        { success := false, error := some ErrKind.InvalidText } ∧
      uploadCallCount text oracle = 0) ∧
    (text.data.all Char.isWhitespace = false →
      text.length > MAX_TEXT_LENGTH →
      uploadToPaste text oracle =
        { success := false, error := some ErrKind.SizeLimitExceeded } ∧
      uploadCallCount text oracle = 0) :=
  ⟨uploadToPaste_whitespace text oracle,
   uploadToPaste_too_long text oracle⟩

/-- Witness for C4 (amended): the single-space text fails with
`InvalidText` and a 500,001-character text of `a`s fails with
`SizeLimitExceeded`, both without a Transport call. -/
theorem upload_validation_witness :
    (uploadToPaste " " timeoutOracle =
      { success := false, error := some ErrKind.InvalidText } ∧
     uploadCallCount " " timeoutOracle = 0) ∧
    (uploadToPaste longNonWhitespace timeoutOracle =
      { success := false, error := some ErrKind.SizeLimitExceeded } ∧
     uploadCallCount longNonWhitespace timeoutOracle = 0) := by
  constructor
  · exact (upload_validation " " timeoutOracle).1 (by decide)
  · exact (upload_validation longNonWhitespace timeoutOracle).2
      (replicate_a_not_whitespace MAX_TEXT_LENGTH)
      (by
        show (List.replicate (MAX_TEXT_LENGTH + 1) 'a').length > MAX_TEXT_LENGTH
        rw [List.length_replicate]
        omega)

/-! ## C5: the result invariant and the worker's relay -/

lemma validateText_invalid_has_error (text : String)
    (h : (validateText text).valid = false) :
    (validateText text).error.isSome = true := by
  unfold validateText at *
  split_ifs at * <;> simp_all

lemma interpretResponse_tagged (resp : HttpResponse) :
    ((interpretResponse resp).success = true →
      (interpretResponse resp).link.isSome = true ∧
      (interpretResponse resp).id.isSome = true) ∧
    ((interpretResponse resp).success = false →
      (interpretResponse resp).error.isSome = true) := by
  unfold interpretResponse
  by_cases hid : extractPasteId resp = "" <;> split_ifs <;> simp_all

lemma uploadToPaste_tagged (text : String) (oracle : Nat → AttemptOutcome) :
    ((uploadToPaste text oracle).success = true →
      (uploadToPaste text oracle).link.isSome = true ∧
      (uploadToPaste text oracle).id.isSome = true) ∧
    ((uploadToPaste text oracle).success = false →
      (uploadToPaste text oracle).error.isSome = true) := by
  cases hv : (validateText text).valid
  · have hup : uploadToPaste text oracle =
        { success := false, error := (validateText text).error } := by
      simp [uploadToPaste, uploadAttempt, hv]
    rw [hup]
    exact ⟨fun h => by simp at h,
           fun _ => validateText_invalid_has_error text hv⟩
  · cases hf : (fetchWithRetry oracle 0 RETRY_ATTEMPTS).1 with
    | ok resp =>
      have hup : uploadToPaste text oracle = interpretResponse resp := by
        simp [uploadToPaste, uploadAttempt, hv, hf]
      rw [hup]
      exact interpretResponse_tagged resp
    | error e =>
      have hup : uploadToPaste text oracle =
          (match e with
          | .timedOut => { success := false, error := some ErrKind.Timeout }
          | .network => { success := false, error := some ErrKind.NetworkError }
          | .other =>
            { success := false, error := some ErrKind.UploadFailed }) := by
        cases e <;> simp [uploadToPaste, uploadAttempt, hv, hf]
      rw [hup]
      cases e <;> exact ⟨fun h => by simp at h, fun _ => rfl⟩

/-- C5 counterexample: for a successful upload the worker's relayed
`createShareLink` response has `success = true` but carries no `id` field,
so the relayed response does not satisfy "success implies id present". -/
theorem relay_drops_id_counterexample :
    (relayResponse (uploadToPaste "hello" createdOracle)).success =
      some true ∧
    (relayResponse (uploadToPaste "hello" createdOracle)).id = none := by
  exact ⟨by decide, rfl⟩

/-- C5 (amended): every `UploadResult` produced by `upload` satisfies the
invariant — success implies `link` and `id` present, failure implies
`error` present; the relayed `createShareLink` response satisfies
"success implies link present" and "failure implies error present", but
never carries an `id` field. -/
theorem upload_result_invariant (text : String)
    (oracle : Nat → AttemptOutcome) :
    ((uploadToPaste text oracle).success = true →
      (uploadToPaste text oracle).link.isSome = true ∧
      (uploadToPaste text oracle).id.isSome = true) ∧
    ((uploadToPaste text oracle).success = false →
      (uploadToPaste text oracle).error.isSome = true) ∧
    ((relayResponse (uploadToPaste text oracle)).success = some true →
      (relayResponse (uploadToPaste text oracle)).link.isSome = true) ∧
    ((relayResponse (uploadToPaste text oracle)).success = some false →
      (relayResponse (uploadToPaste text oracle)).error.isSome = true) ∧
    (relayResponse (uploadToPaste text oracle)).id = none := by
  obtain ⟨h1, h2⟩ := uploadToPaste_tagged text oracle
  refine ⟨h1, h2, ?_, ?_, rfl⟩
  · intro hs
    have hsucc : (uploadToPaste text oracle).success = true := by
      simpa [relayResponse] using hs
    simpa [relayResponse] using (h1 hsucc).1
  · intro hs
    have hsucc : (uploadToPaste text oracle).success = false := by
      simpa [relayResponse] using hs
    have he := h2 hsucc
    simp only [relayResponse]
    cases herr : (uploadToPaste text oracle).error
    · rw [herr] at he; simp at he
    · simp [herr]

/-- Witness for C5 (amended): the link is present in the relayed response
of a successful upload and the error is present in that of a failed
one. -/
theorem upload_result_invariant_witness :
    (relayResponse (uploadToPaste "hello" createdOracle)).link.isSome =
      true ∧
    (relayResponse (uploadToPaste "hello" timeoutOracle)).error.isSome =
      true := by
  constructor
  · exact (upload_result_invariant "hello" createdOracle).2.2.1 (by decide)
  · exact (upload_result_invariant "hello" timeoutOracle).2.2.2.1 (by decide)

/-! ## C6: bounded, newest-first share history -/

/-- The history entry `storeShareHistory` creates for one successful
upload, given its text, link and storage-time timestamp. -/
def entryOf (u : String × String × String) : ShareHistoryEntry :=
  { text := u.1.take 100, link := u.2.1, timestamp := u.2.2 }

/-- Run `storeShareHistory` once per successful upload, oldest first. -/
def runStores (uploads : List (String × String × String))
    (history : List ShareHistoryEntry) : List ShareHistoryEntry :=
  uploads.foldl (fun acc u => storeShareHistory u.1 u.2.1 u.2.2 acc) history

lemma store_eq_take (t l ts : String) (acc : List ShareHistoryEntry)
    (h : acc.length ≤ HISTORY_LIMIT) :
    storeShareHistory t l ts acc =
      ({ text := t.take 100, link := l, timestamp := ts } ::
        acc).take HISTORY_LIMIT := by
  unfold storeShareHistory
  by_cases hc : (({ text := t.take 100, link := l, timestamp := ts } :
      ShareHistoryEntry) :: acc).length > HISTORY_LIMIT
  · rw [if_pos hc, List.dropLast_eq_take]
    congr 1
    simp only [List.length_cons] at hc ⊢
    omega
  · rw [if_neg hc]
    exact (List.take_of_length_le (Nat.le_of_not_lt hc)).symm

lemma take_append_take_eq {α : Type} (xs ys : List α) (n : Nat) :
    (xs ++ ys.take n).take n = (xs ++ ys).take n := by
  rw [List.take_append_eq_append_take, List.take_append_eq_append_take,
    List.take_take, Nat.min_eq_left (Nat.sub_le _ _)]

lemma runStores_eq_take (uploads : List (String × String × String)) :
    ∀ acc, acc.length ≤ HISTORY_LIMIT →
      runStores uploads acc =
        ((uploads.map entryOf).reverse ++ acc).take HISTORY_LIMIT := by
  induction uploads with
  | nil =>
    intro acc h
    simp [runStores, List.take_of_length_le h]
  | cons u l ih =>
    intro acc h
    have hstep : storeShareHistory u.1 u.2.1 u.2.2 acc =
        (entryOf u :: acc).take HISTORY_LIMIT :=
      store_eq_take u.1 u.2.1 u.2.2 acc h
    have hlen : ((entryOf u :: acc).take HISTORY_LIMIT).length ≤
        HISTORY_LIMIT := by
      rw [List.length_take]
      exact Nat.min_le_left _ _
    calc runStores (u :: l) acc
        = runStores l (storeShareHistory u.1 u.2.1 u.2.2 acc) := rfl
      _ = runStores l ((entryOf u :: acc).take HISTORY_LIMIT) := by
          rw [hstep]
      _ = ((l.map entryOf).reverse ++
            (entryOf u :: acc).take HISTORY_LIMIT).take HISTORY_LIMIT :=
          ih _ hlen
      _ = ((l.map entryOf).reverse ++ (entryOf u :: acc)).take
            HISTORY_LIMIT := take_append_take_eq _ _ _
      _ = (((u :: l).map entryOf).reverse ++ acc).take HISTORY_LIMIT := by
          simp [List.map_cons, List.reverse_cons, List.append_assoc]

/-- C6: after `N > HISTORY_LIMIT` successful uploads starting from an
empty store, the stored history has length exactly `HISTORY_LIMIT` and
equals the `HISTORY_LIMIT` most recent entries in newest-first order (a
prefix of the full newest-first sequence of all `N` uploads); moreover
every store operation preserves the invariant that the length never
exceeds the capacity and the result is the new entry prepended, truncated
to the capacity. -/
theorem share_history_capacity (uploads : List (String × String × String))
    (hN : uploads.length > HISTORY_LIMIT) :
    (runStores uploads []).length = HISTORY_LIMIT ∧
    runStores uploads [] =
      ((uploads.map entryOf).reverse).take HISTORY_LIMIT ∧
    (∀ t l ts acc, acc.length ≤ HISTORY_LIMIT →
      (storeShareHistory t l ts acc).length ≤ HISTORY_LIMIT ∧
      storeShareHistory t l ts acc =
        ({ text := t.take 100, link := l, timestamp := ts } ::
          acc).take HISTORY_LIMIT) := by
  have hmain := runStores_eq_take uploads [] (by simp)
  simp only [List.append_nil] at hmain
  refine ⟨?_, hmain, ?_⟩
  · rw [hmain, List.length_take, List.length_reverse, List.length_map]
    omega
  · intro t l ts acc h
    refine ⟨?_, store_eq_take t l ts acc h⟩
    rw [store_eq_take t l ts acc h, List.length_take]
    exact Nat.min_le_left _ _

/-- 51 successful uploads, one more than the capacity of 50. -/
def sampleUploads : List (String × String × String) :=
  List.replicate 51 ("t", "l", "ts")

/-- Witness for C6: after 51 successful uploads the stored history holds
exactly the 50 most recent entries, newest first. -/
theorem share_history_capacity_witness :
    (runStores sampleUploads []).length = HISTORY_LIMIT ∧
    runStores sampleUploads [] =
      ((sampleUploads.map entryOf).reverse).take HISTORY_LIMIT := by
  have h := share_history_capacity sampleUploads (by decide)
  exact ⟨h.1, h.2.1⟩

/-! ## C7: failed uploads leave the history unchanged -/

/-- C7: for every `createShareLink` request whose upload fails — a
`success = false` result or a rejected upload promise — the stored share
history is left unchanged. -/
theorem failed_upload_preserves_history (text : Option String)
    (up : Except Unit UploadResult) (storeOk : Bool) (now : String)
    (history : List ShareHistoryEntry)
    (hfail : ∀ r, up = Except.ok r → r.success = false) :
    (handleCreateShareLink text up storeOk now history).2 = history := by
  rcases text with _ | t
  · rfl
  · by_cases ht : t = ""
    · simp [handleCreateShareLink, ht]
    · cases up with
      | error e => simp [handleCreateShareLink, ht]
      | ok r =>
        have hr : r.success = false := hfail r rfl
        simp [handleCreateShareLink, ht, hr]

/-- Witness for C7: a timed-out upload leaves an empty history empty. -/
theorem failed_upload_preserves_history_witness :
    (handleCreateShareLink (some "x")
        (Except.ok { success := false, error := some ErrKind.Timeout })
        true "now" []).2 = ([] : List ShareHistoryEntry) :=
  failed_upload_preserves_history (some "x")
    (Except.ok { success := false, error := some ErrKind.Timeout })
    true "now" [] (fun r hr => by cases hr; rfl)

/-! ## C8: writers of the persisted share history -/

def entryA : ShareHistoryEntry := { text := "a", link := "la", timestamp := "ta" }

def entryB : ShareHistoryEntry := { text := "b", link := "lb", timestamp := "tb" }

/-- C8 counterexample: the side panel — a UI surface — writes the stored
history directly: its bulk delete with item 0 selected performs a
`chrome.storage.local.set` of a history that differs from the stored one,
so the history is not modified only by the History Store's own append,
eviction and clear-all operations. -/
theorem sidepanel_bulk_delete_counterexample :
    handleBulkDelete [0] [entryA, entryB] = some [entryB] ∧
    [entryB] ≠ [entryA, entryB] := by
  exact ⟨by decide, by decide⟩

/-- C8 (amended): besides the History Store's append/evict and explicit
clear-all, the side panel's bulk delete also writes the persisted share
history directly; that write happens only for a non-empty selection and
only removes entries — the written history is an order-preserving
sublist of the stored one, so entries are still never mutated. -/
theorem bulk_delete_only_removes (selectedItems : List Nat)
    (shareHistory : List ShareHistoryEntry) :
    (selectedItems = [] →
      handleBulkDelete selectedItems shareHistory = none) ∧
    (∀ h', handleBulkDelete selectedItems shareHistory = some h' →
      List.Sublist h' shareHistory) := by
  constructor
  · intro h
    simp [handleBulkDelete, h]
  · intro h' hw
    unfold handleBulkDelete at hw
    by_cases hsel : selectedItems.isEmpty
    · simp [hsel] at hw
    · rw [if_neg hsel] at hw
      injection hw with hw
      have h1 : List.Sublist
          (((shareHistory.enum).filter
            (fun p => !(selectedItems.contains p.1))).map Prod.snd)
          ((shareHistory.enum).map Prod.snd) :=
        (List.filter_sublist _).map _
      rw [List.enum_map_snd] at h1
      rw [← hw]
      exact h1

/-- Witness for C8 (amended): an empty selection writes nothing, and
deleting item 0 of a two-entry history yields a sublist of it. -/
theorem bulk_delete_only_removes_witness :
    handleBulkDelete [] [entryA] = none ∧
    List.Sublist [entryB] [entryA, entryB] := by
  constructor
  · exact (bulk_delete_only_removes [] [entryA]).1 rfl
  · exact (bulk_delete_only_removes [0] [entryA, entryB]).2 [entryB]
      (by decide)

/-! ## C9: the upload boundary never throws -/

/-- C9: for every input and every Transport outcome, `upload` returns a
tagged result and never lets an exception cross its boundary: every
result has `success = true` or an error present; every Transport
exception is converted to its tagged failure (`Timeout`, `NetworkError`
or the generic `UploadFailed`); and every validation failure is returned
as a result value. -/
theorem upload_never_throws (text : String) (oracle : Nat → AttemptOutcome) :
    ((uploadToPaste text oracle).success = true ∨
      (uploadToPaste text oracle).error.isSome = true) ∧
    (∀ e, uploadAttempt text oracle = Except.error e →
      uploadToPaste text oracle =
        { success := false,
          error := some (match e with
            | .timedOut => ErrKind.Timeout
            | .network => ErrKind.NetworkError
            | .other => ErrKind.UploadFailed) }) ∧
    ((validateText text).valid = false →
      uploadToPaste text oracle =
        { success := false, error := (validateText text).error } ∧
      (validateText text).error.isSome = true) := by
  obtain ⟨h1, h2⟩ := uploadToPaste_tagged text oracle
  refine ⟨?_, ?_, ?_⟩
  · cases hs : (uploadToPaste text oracle).success
    · exact Or.inr (h2 hs)
    · exact Or.inl rfl
  · intro e he
    unfold uploadToPaste
    rw [he]
    cases e <;> rfl
  · intro hv
    constructor
    · simp [uploadToPaste, uploadAttempt, hv]
    · exact validateText_invalid_has_error text hv

def networkFailOracle : Nat → AttemptOutcome :=
  fun _ => AttemptOutcome.networkFailure

/-- Witness for C9: a network failure comes back as the `NetworkError`
result and an empty text as the `InvalidText` result — both tagged
values, not exceptions. -/
theorem upload_never_throws_witness :
    uploadToPaste "hello" networkFailOracle =
      { success := false, error := some ErrKind.NetworkError } ∧
    uploadToPaste "" timeoutOracle =
      { success := false, error := some ErrKind.InvalidText } := by
  constructor
  · exact (upload_never_throws "hello" networkFailOracle).2.1
      TransportError.network (by rfl)
  · exact ((upload_never_throws "" timeoutOracle).2.2 (by decide)).1.trans
      (by decide)

/-! ## C10: the worker's listener answers every message -/

/-- C10 counterexample: the message `{action: ""}` carries an action field
whose value is not a recognized action, yet the listener answers
"Invalid message format" (the guard checks JavaScript falsiness, and `""`
is falsy), not "Unknown action" as the claim states for unrecognized
actions. -/
theorem onMessage_empty_action_counterexample :
    onMessage { action := some "", text := none } false
        (Except.error ()) true "now" [] [] =
      ({ success := some false, error := some WorkerError.invalidFormat },
       ([] : List ShareHistoryEntry)) ∧
    WorkerError.invalidFormat ≠ WorkerError.unknownAction := by
  exact ⟨by decide, by decide⟩

/-- C10 (amended): the listener sends exactly one response to every
message — `onMessage` is a total function to a single response: a
message whose action field is missing or empty (falsy) receives
`Invalid message format`, a message with a non-empty unrecognized action
receives `Unknown action`, and a synchronous exception inside the
handler's `try` block yields `Internal error` rather than no response. -/
theorem onMessage_single_response (req : WorkerRequest) (fault : Bool)
    (up : Except Unit UploadResult) (storeOk : Bool) (now : String)
    (logs : List String) (history : List ShareHistoryEntry) :
    (req.action = none →
      onMessage req fault up storeOk now logs history =
        ({ success := some false, error := some WorkerError.invalidFormat },
         history)) ∧
    (req.action = some "" →
      onMessage req fault up storeOk now logs history =
        ({ success := some false, error := some WorkerError.invalidFormat },
         history)) ∧
    (∀ a, req.action = some a → a ≠ "" → fault = false →
      a ∉ ["createShareLink", "ping", "textSelected", "getShareHistory",
        "clearShareHistory", "getLogs"] →
      onMessage req fault up storeOk now logs history =
        ({ success := some false, error := some WorkerError.unknownAction },
         history)) ∧
    (∀ a, req.action = some a → a ≠ "" → fault = true →
      onMessage req fault up storeOk now logs history =
        ({ success := some false, error := some WorkerError.internal },
         history)) := by
  refine ⟨?_, ?_, ?_, ?_⟩
  · intro h
    simp [onMessage, h]
  · intro h
    simp [onMessage, h]
  · intro a ha hne hf hmem
    simp only [List.mem_cons, List.not_mem_nil, or_false, not_or] at hmem
    obtain ⟨m1, m2, m3, m4, m5, m6⟩ := hmem
    simp [onMessage, ha, hne, hf, m1, m2, m3, m4, m5, m6]
  · intro a ha hne hf
    simp [onMessage, ha, hne, hf]

/-- Witness for C10 (amended): a message without an action, one with the
unknown action `bogus`, and a faulting `ping` each get their single
specified response. -/
theorem onMessage_single_response_witness :
    onMessage { action := none, text := none } false (Except.error ())
        true "n" [] [] =
      ({ success := some false, error := some WorkerError.invalidFormat },
       ([] : List ShareHistoryEntry)) ∧
    onMessage { action := some "bogus", text := none } false
        (Except.error ()) true "n" [] [] =
      ({ success := some false, error := some WorkerError.unknownAction },
       ([] : List ShareHistoryEntry)) ∧
    onMessage { action := some "ping", text := none } true
        (Except.error ()) true "n" [] [] =
      ({ success := some false, error := some WorkerError.internal },
       ([] : List ShareHistoryEntry)) := by
  refine ⟨?_, ?_, ?_⟩
  · exact (onMessage_single_response { action := none, text := none }
      false (Except.error ()) true "n" [] []).1 rfl
  · exact (onMessage_single_response { action := some "bogus", text := none }
      false (Except.error ()) true "n" [] []).2.2.1 "bogus" rfl
      (by decide) rfl (by decide)
  · exact (onMessage_single_response { action := some "ping", text := none }
      true (Except.error ()) true "n" [] []).2.2.2 "ping" rfl
      (by decide) rfl

end PickyShare
